import Mathlib

/-!
Verification of the matomo-sdk tracker client (TypeScript sources
`src/index.ts` and `src/src/index.ts`) against its specification.

The embedding models the JavaScript runtime values the client manipulates,
the `application/x-www-form-urlencoded` serialization performed by
`URLSearchParams`, and the operations `constructor`, `track`, `trackBulk`
(from `src/index.ts`) and `track`, `trackEvent`, `trackContent`
(from `src/src/index.ts`, namespace `V2`).  Network effects are modelled by
passing the outcome of the single `fetch` call as an explicit parameter and
recording the issued requests; in-place mutation of the caller-supplied
options object is modelled by returning the final state of that object.
-/

namespace Matomo

/-- JavaScript numbers, restricted to integral values plus NaN.  The client
only ever produces integers (`rec = 1`, integral site ids); `NaN` arises from
`Number(s)` on a non-numeric string.  Non-integral doubles never occur in the
claims and are not represented. -/
inductive JSNumber where
  | nan
  | int (n : Int)
deriving DecidableEq, Repr

/-- Decimal rendering of a JS number by `String(value)`. -/
def JSNumber.toStr : JSNumber → String
  | .nan => "NaN"
  | .int n => toString n

/-- Runtime JavaScript values.  Objects, arrays and functions are opaque:
the client only inspects their type tag and truthiness. -/
inductive JSValue where
  | undef
  | null
  | bool (b : Bool)
  | num (n : JSNumber)
  | str (s : String)
  | obj
  | arr
  | fn
deriving DecidableEq, Repr

namespace JSValue

/-- JavaScript truthiness. -/
def truthy : JSValue → Bool
  | .undef => false
  | .null => false
  | .bool b => b
  | .num .nan => false
  | .num (.int n) => n != 0
  | .str s => s != ""
  | .obj => true
  | .arr => true
  | .fn => true

/-- Tag check `typeof v === "number"`. -/
def isNum : JSValue → Bool
  | .num _ => true
  | _ => false

/-- Tag check `typeof v === "string"`. -/
def isStr : JSValue → Bool
  | .str _ => true
  | _ => false

/-- Underlying string of a string value (only applied under an `isStr` guard). -/
def strVal : JSValue → String
  | .str s => s
  | _ => ""

/-- Rendering by the JS `String(value)` conversion.  Faithful on the
undefined/null/boolean/number/string values that actually occur as tracking
option values (their TS type is `number | string | undefined`); the opaque
aggregate constructors are given fixed renderings. -/
def jsToString : JSValue → String
  | .undef => "undefined"
  | .null => "null"
  | .bool b => if b then "true" else "false"
  | .num n => n.toStr
  | .str s => s
  | .obj => "[object Object]"
  | .arr => ""
  | .fn => "function"

end JSValue

/-- Suffix test on strings (the JS `String.prototype.endsWith`), computed on
character lists. -/
def strEndsWith (s suffix : String) : Bool :=
  decide (suffix.toList.length ≤ s.toList.length) &&
    s.toList.drop (s.toList.length - suffix.toList.length) == suffix.toList

/-- Prefix test on strings (the JS `String.prototype.startsWith`), computed
on character lists. -/
def strStartsWith (s pre : String) : Bool :=
  s.toList.take pre.toList.length == pre.toList

/-- Whitespace trimming on both ends (the JS `String.prototype.trim`),
computed on character lists. -/
def strTrim (s : String) : String :=
  String.mk (((s.toList.dropWhile Char.isWhitespace).reverse.dropWhile
    Char.isWhitespace).reverse)

/-- Parse a non-empty all-digit character list as a natural number. -/
def parseNatDigits (cs : List Char) : Option Nat :=
  if cs = [] then none
  else if cs.all Char.isDigit then
    some (cs.foldl (fun a c => a * 10 + (c.toNat - 48)) 0)
  else none

/-- Conversion `Number(s)` of a string, modelled for the integral fragment:
a trimmed-empty string gives 0, an optionally signed run of digits gives that
integer, anything else gives NaN.  (Real JS also parses floats, hex and
exponents; no claim depends on those inputs.) -/
def jsStringToNumber (s : String) : JSNumber :=
  let t := strTrim s
  if t = "" then .int 0
  else
    match t.toList with
    | '-' :: rest =>
      match parseNatDigits rest with
      | some n => .int (-(n : Int))
      | none => .nan
    | '+' :: rest =>
      match parseNatDigits rest with
      | some n => .int (n : Int)
      | none => .nan
    | cs =>
      match parseNatDigits cs with
      | some n => .int (n : Int)
      | none => .nan

/-- Conversion `Number(v)`.  In the client it is only reached for number and
string values (the constructor validates the tag first). -/
def toNumber : JSValue → JSNumber
  | .num n => n
  | .str s => jsStringToNumber s
  | .bool b => .int (if b then 1 else 0)
  | .null => .int 0
  | _ => .nan

/-- Options objects are insertion-ordered key/value maps, as JS objects with
string keys are. -/
abbrev Options := List (String × JSValue)

/-- Property assignment `o[k] = v`: an existing key keeps its position and
gets the new value, a new key is appended. -/
def setKey : Options → String → JSValue → Options
  | [], k, v => [(k, v)]
  | (k', v') :: rest, k, v =>
    if k' = k then (k', v) :: rest else (k', v') :: setKey rest k v

/-- Lookup of a key in an options object. -/
def getKey : Options → String → Option JSValue
  | [], _ => none
  | (k', v') :: rest, k => if k' = k then some v' else getKey rest k

/-- Property access `o.k`, yielding `undefined` for a missing key. -/
def getProp (o : Options) (k : String) : JSValue :=
  ((getKey o k).getD .undef)

/-- Assignment into a string-valued record (the accumulator of
`optionValuesToString`). -/
def setStrKey : List (String × String) → String → String → List (String × String)
  | [], k, v => [(k, v)]
  | (k', v') :: rest, k, v =>
    if k' = k then (k', v) :: rest else (k', v') :: setStrKey rest k v

/-- Lookup in a string-valued record. -/
def getStrKey : List (String × String) → String → Option String
  | [], _ => none
  | (k', v') :: rest, k => if k' = k then some v' else getStrKey rest k

/-- Embedding of `optionValuesToString` (identical in both source files):
`Object.entries(options).reduce((acc, [key, value]) => { if (value !==
undefined) { acc[key] = String(value); } return acc; }, {})`. -/
def optionValuesToString (options : Options) : List (String × String) :=
  options.foldl
    (fun acc kv => if kv.2 ≠ JSValue.undef then setStrKey acc kv.1 kv.2.jsToString else acc)
    []

/-- Bytes that `application/x-www-form-urlencoded` leaves unescaped:
ASCII alphanumerics and `*`, `-`, `.`, `_`. -/
def isUrlencodedSafe (b : Nat) : Bool :=
  (48 ≤ b && b ≤ 57) || (65 ≤ b && b ≤ 90) || (97 ≤ b && b ≤ 122) ||
    b = 42 || b = 45 || b = 46 || b = 95

/-- Uppercase hexadecimal digit for a value below 16. -/
def hexDigit (n : Nat) : Char :=
  if n < 10 then Char.ofNat (48 + n) else Char.ofNat (55 + n)

/-- Encode one byte for `application/x-www-form-urlencoded`: space becomes
`+`, safe bytes stand for themselves, the rest become `%XX`. -/
def percentEncodeByte (b : Nat) : String :=
  if b = 32 then "+"
  else if isUrlencodedSafe b then String.singleton (Char.ofNat b)
  else "%" ++ String.singleton (hexDigit (b / 16)) ++ String.singleton (hexDigit (b % 16))

/-- UTF-8 bytes of a character. -/
def utf8Bytes (c : Char) : List Nat :=
  let n := c.toNat
  if n < 128 then [n]
  else if n < 2048 then [192 + n / 64, 128 + n % 64]
  else if n < 65536 then [224 + n / 4096, 128 + (n / 64) % 64, 128 + n % 64]
  else [240 + n / 262144, 128 + (n / 4096) % 64, 128 + (n / 64) % 64, 128 + n % 64]

/-- Percent-encode a string (UTF-8, form-urlencoded variant). -/
def urlencode (s : String) : String :=
  String.join (((s.toList.map utf8Bytes).flatten).map percentEncodeByte)

/-- Serialization performed by `new URLSearchParams(record).toString()`:
`k1=v1&k2=v2&...` in insertion order, keys and values percent-encoded. -/
def formUrlEncode (pairs : List (String × String)) : String :=
  String.intercalate "&" (pairs.map (fun kv => urlencode kv.1 ++ "=" ++ urlencode kv.2))

/-- The tracker client state after construction.  The runtime value of
`siteId` is kept as a `JSValue` so that the defensive
`this.siteId !== undefined && this.siteId !== null` check in `trackBulk`
can be modelled as written. -/
structure MatomoTracker where
  siteId : JSValue
  trackerUrl : String
  usesHTTPS : Bool
deriving DecidableEq, Repr

/-- Endpoint suffix check of the constructor. -/
def recognizedEndpoint (u : String) : Bool :=
  strEndsWith u "matomo.php" || strEndsWith u "piwik.php"

/-- Embedding of the `MatomoTracker` constructor (`src/index.ts` lines 25-41;
`src/src/index.ts` is identical apart from the `usesHTTPS` field).  Each
`assert.ok` that fails becomes an `Except.error` with the assertion message. -/
def construct (siteId trackerUrl noURLValidation : JSValue) :
    Except String MatomoTracker :=
  if !(siteId.truthy && (siteId.isNum || siteId.isStr)) then
    .error "Matomo siteId required."
  else if !(trackerUrl.truthy && trackerUrl.isStr) then
    .error "Matomo tracker URL required, e.g. http://example.com/matomo.php"
  else if !noURLValidation.truthy && !recognizedEndpoint trackerUrl.strVal then
    .error "A tracker URL must end with matomo.php or piwik.php"
  else
    .ok { siteId := .num (toNumber siteId)
          trackerUrl := trackerUrl.strVal
          usesHTTPS := strStartsWith trackerUrl.strVal "https" }

/-- Outcome of the single `fetch` call an operation dispatches: either an
HTTP response with a status code, or a transport-level exception carrying a
message. -/
inductive FetchOutcome where
  | response (status : Nat)
  | failure (msg : String)
deriving DecidableEq, Repr

/-- The `Response.ok` predicate of the Fetch API: status in the range 200-299. -/
def responseOk (status : Nat) : Bool :=
  200 ≤ status && status ≤ 299

/-- An emission on the error event channel: `this.emit("error", arg)` with
either the numeric status code or the exception message. -/
inductive ErrorEvent where
  | statusCode (status : Nat)
  | message (msg : String)
deriving DecidableEq, Repr

/-- An outbound network request issued by the client. -/
inductive HttpRequest where
  | get (url : String)
  | post (url : String) (contentType : String) (body : String)
deriving DecidableEq, Repr

/-- The response handle an operation resolves with. -/
structure Response where
  status : Nat
deriving DecidableEq, Repr

deriving instance DecidableEq for Except

/-- Observable outcome of one `track` call: the network requests issued, the
error events emitted, the settled value of the returned promise (an
`Except.error` is a rejection, `.ok none` is resolving with `undefined`),
and the final state of the caller-supplied options object (the source
mutates it in place). -/
structure TrackOutcome where
  requests : List HttpRequest
  events : List ErrorEvent
  result : Except String (Option Response)
  finalOptions : Options
deriving DecidableEq, Repr

/-- Argument of `track` in `src/index.ts`: a string, an options object, or no
argument at all (`undefined`). -/
inductive TrackInput where
  | undef
  | str (s : String)
  | obj (options : Options)
deriving DecidableEq, Repr

/-- String-shorthand canonicalization at the top of `track`
(`src/index.ts` lines 53-57): a bare string becomes `{ url: s }`; an object
passes through; `undefined` stays unavailable. -/
def canonTrackInput : TrackInput → Option Options
  | .str s => some [("url", .str s)]
  | .obj o => some o
  | .undef => none

/-- Injection of the mandatory fields, shared by `track` and `trackBulk`:
`options.idsite = this.siteId; options.rec = 1;`. -/
def injectMandatory (t : MatomoTracker) (options : Options) : Options :=
  setKey (setKey options "idsite" t.siteId) "rec" (.num (.int 1))

/-- Embedding of `MatomoTracker.track` (`src/index.ts` lines 52-86).
String shorthand is canonicalized, then `if (!options || !options.url)`
rejects via `assert.fail`; otherwise `idsite` and `rec` are injected into the
caller object, the request URL is built from it, one GET is dispatched, and
the response branch either resolves with the response, or (non-ok status /
exception) emits on the error channel when a listener exists and resolves
with `undefined`. -/
def track (t : MatomoTracker) (listeners : Nat) (input : TrackInput)
    (outcome : FetchOutcome) : TrackOutcome :=
  match canonTrackInput input with
  | none =>
    { requests := [], events := []
      result := .error "URL to be tracked must be specified.", finalOptions := [] }
  | some options =>
    if !(getProp options "url").truthy then
      { requests := [], events := []
        result := .error "URL to be tracked must be specified.", finalOptions := options }
    else
      let options := injectMandatory t options
      let requestUrl := t.trackerUrl ++ "?" ++ formUrlEncode (optionValuesToString options)
      match outcome with
      | .response status =>
        if !responseOk status then
          { requests := [.get requestUrl]
            events := if listeners > 0 then [.statusCode status] else []
            result := .ok none, finalOptions := options }
        else
          { requests := [.get requestUrl], events := []
            result := .ok (some { status := status }), finalOptions := options }
      | .failure msg =>
        { requests := [.get requestUrl]
          events := if listeners > 0 then [.message msg] else []
          result := .ok none, finalOptions := options }

/-- Observable outcome of one `trackBulk` call; `finalItems` is the final
state of the caller-supplied event items (mutated in place by the source),
and `callbackArgs` collects the invocations of the optional callback. -/
structure TrackBulkOutcome where
  requests : List HttpRequest
  events : List ErrorEvent
  result : Except String (Option Response)
  finalItems : List Options
  callbackArgs : List String
deriving DecidableEq, Repr

/-- JSON string escaping as performed by `JSON.stringify` on a string value:
quote, backslash and the five shorthand control characters get two-character
escapes, other control characters get `\u00XX`, everything else stands for
itself. -/
def jsonEscapeChar (c : Char) : String :=
  if c = '"' then "\\\""
  else if c = '\\' then "\\\\"
  else if c = Char.ofNat 8 then "\\b"
  else if c = Char.ofNat 9 then "\\t"
  else if c = Char.ofNat 10 then "\\n"
  else if c = Char.ofNat 12 then "\\f"
  else if c = Char.ofNat 13 then "\\r"
  else if c.toNat < 32 then
    "\\u00" ++ String.singleton (hexDigit (c.toNat / 16)) ++
      String.singleton (hexDigit (c.toNat % 16))
  else String.singleton c

/-- JSON string literal for a string value. -/
def jsonStringLit (s : String) : String :=
  "\"" ++ String.join (s.toList.map jsonEscapeChar) ++ "\""

/-- Body built by `trackBulk`:
`JSON.stringify({ requests: eventItems.map(...) })` where each item, after
`idsite`/`rec` injection, becomes `"?" + new URLSearchParams(...)`. -/
def bulkBody (t : MatomoTracker) (eventItems : List Options) : String :=
  "\x7b\"requests\":[" ++
    String.intercalate ","
      ((eventItems.map (fun query =>
        jsonStringLit ("?" ++ formUrlEncode (optionValuesToString (injectMandatory t query))))) ) ++
  "]\x7d"

/-- Embedding of `MatomoTracker.trackBulk` (`src/index.ts` lines 90-125).
`eventItems = none` models calling with no argument.  The two `assert.ok`
guards run first; then every item is mutated in place, the JSON body is
built, one POST is dispatched, and the response branch mirrors `track`
except that a successful response resolves with `undefined` after invoking
the optional callback on the response text (modelled by recording one
callback invocation). -/
def trackBulk (t : MatomoTracker) (listeners : Nat)
    (eventItems : Option (List Options)) (outcome : FetchOutcome)
    (responseText : String) : TrackBulkOutcome :=
  match eventItems with
  | none =>
    { requests := [], events := [], result := .error "Events require at least one."
      finalItems := [], callbackArgs := [] }
  | some items =>
    if !(items.length > 0) then
      { requests := [], events := [], result := .error "Events require at least one."
        finalItems := items, callbackArgs := [] }
    else if !(t.siteId != JSValue.undef && t.siteId != JSValue.null) then
      { requests := [], events := [], result := .error "siteId must be specified."
        finalItems := items, callbackArgs := [] }
    else
      let finalItems := items.map (injectMandatory t)
      let request := HttpRequest.post t.trackerUrl "application/json" (bulkBody t items)
      match outcome with
      | .response status =>
        if !responseOk status then
          { requests := [request]
            events := if listeners > 0 then [.statusCode status] else []
            result := .ok none, finalItems := finalItems, callbackArgs := [] }
        else
          { requests := [request], events := [], result := .ok none
            finalItems := finalItems, callbackArgs := [responseText] }
      | .failure msg =>
        { requests := [request]
          events := if listeners > 0 then [.message msg] else []
          result := .ok none, finalItems := finalItems, callbackArgs := [] }

namespace V2

/-- Embedding of `MatomoTracker.track` of `src/src/index.ts` (lines 48-72):
no URL validation; unconditionally injects `idsite`/`rec` into the caller
object, dispatches one GET, and handles the response exactly as the
`src/index.ts` version does. -/
def track (t : MatomoTracker) (listeners : Nat) (options : Options)
    (outcome : FetchOutcome) : TrackOutcome :=
  let options := injectMandatory t options
  let requestUrl := t.trackerUrl ++ "?" ++ formUrlEncode (optionValuesToString options)
  match outcome with
  | .response status =>
    if !responseOk status then
      { requests := [.get requestUrl]
        events := if listeners > 0 then [.statusCode status] else []
        result := .ok none, finalOptions := options }
    else
      { requests := [.get requestUrl], events := []
        result := .ok (some { status := status }), finalOptions := options }
  | .failure msg =>
    { requests := [.get requestUrl]
      events := if listeners > 0 then [.message msg] else []
      result := .ok none, finalOptions := options }

/-- Embedding of `MatomoTracker.trackEvent` (`src/src/index.ts` lines
99-106): `invariant(options && options.e_c && options.e_a, ...)`, then
delegation to `track` on the spread copy `{...options, ca: 1}` (a new
object, so the caller object is left untouched). -/
def trackEvent (t : MatomoTracker) (listeners : Nat) (options : Options)
    (outcome : FetchOutcome) : TrackOutcome :=
  if !((getProp options "e_c").truthy && (getProp options "e_a").truthy) then
    { requests := [], events := []
      result := .error "Event category and action must be specified."
      finalOptions := options }
  else
    track t listeners (setKey options "ca" (.num (.int 1))) outcome

/-- Embedding of `MatomoTracker.trackContent` (`src/src/index.ts` lines
116-123): `invariant(options && options.c_n && options.c_p, ...)`, then the
same delegation as `trackEvent`. -/
def trackContent (t : MatomoTracker) (listeners : Nat) (options : Options)
    (outcome : FetchOutcome) : TrackOutcome :=
  if !((getProp options "c_n").truthy && (getProp options "c_p").truthy) then
    { requests := [], events := []
      result := .error "Content name and piece must be specified."
      finalOptions := options }
  else
    track t listeners (setKey options "ca" (.num (.int 1))) outcome

end V2

/-- Whether an `Except` value is an error (a rejected promise in the model). -/
def isErr {ε α : Type} : Except ε α → Bool
  | .error _ => true
  | .ok _ => false

/-- Failure predicate of the constructor as claim C6 words it: the site
identifier is missing or not a number/string, or the endpoint URL is missing
or not a non-empty string, or the bypass flag is falsy/absent and the
endpoint URL ends with neither recognized filename.  Stated from the claim
text for comparison with `construct`, which is translated from the source. -/
def claimC6Rejects (siteId trackerUrl noURLValidation : JSValue) : Bool :=
  (siteId == JSValue.undef || !(siteId.isNum || siteId.isStr)) ||
  (trackerUrl == JSValue.undef || !(trackerUrl.isStr && trackerUrl.strVal != "")) ||
  (!noURLValidation.truthy && !recognizedEndpoint trackerUrl.strVal)

/-- Failure predicate of the constructor read off the code: same as the
claim except that a falsy site identifier (0, empty string) is also
rejected, because the assertion tests `siteId && ...`. -/
def amendedC6Rejects (siteId trackerUrl noURLValidation : JSValue) : Bool :=
  (!siteId.truthy || !(siteId.isNum || siteId.isStr)) ||
  (!(trackerUrl.isStr && trackerUrl.strVal != "")) ||
  (!noURLValidation.truthy && !recognizedEndpoint trackerUrl.strVal)

/-- Concrete client used in witnesses, the result of constructing with
site id 1 and endpoint "http://example.com/matomo.php". -/
def exampleTracker : MatomoTracker :=
  { siteId := .num (.int 1), trackerUrl := "http://example.com/matomo.php"
    usesHTTPS := false }

section Lemmas

theorem getKey_setKey_self (o : Options) (k : String) (v : JSValue) :
    getKey (setKey o k v) k = some v := by
  induction o with
  | nil => simp [setKey, getKey]
  | cons hd tl ih =>
    obtain ⟨k₀, v₀⟩ := hd
    simp only [setKey]
    by_cases h0 : k₀ = k
    · rw [if_pos h0]
      simp only [getKey]
      rw [if_pos h0]
    · rw [if_neg h0]
      simp only [getKey]
      rw [if_neg h0]
      exact ih

theorem getKey_setKey_ne (o : Options) (k k' : String) (v : JSValue)
    (h : k' ≠ k) : getKey (setKey o k v) k' = getKey o k' := by
  induction o with
  | nil =>
    simp only [setKey, getKey]
    rw [if_neg (fun hh => h (Eq.symm hh))]
  | cons hd tl ih =>
    obtain ⟨k₀, v₀⟩ := hd
    simp only [setKey]
    by_cases h0 : k₀ = k
    · rw [if_pos h0]
      have hk : ¬ k₀ = k' := fun hh => h (Eq.trans (Eq.symm hh) h0)
      simp only [getKey]
      rw [if_neg hk, if_neg hk]
    · rw [if_neg h0]
      simp only [getKey]
      by_cases h1 : k₀ = k'
      · rw [if_pos h1, if_pos h1]
      · rw [if_neg h1, if_neg h1, ih]

theorem getKey_injectMandatory_idsite (t : MatomoTracker) (o : Options) :
    getKey (injectMandatory t o) "idsite" = some t.siteId := by
  unfold injectMandatory
  rw [getKey_setKey_ne _ _ _ _ (by decide), getKey_setKey_self]

theorem getKey_injectMandatory_rec (t : MatomoTracker) (o : Options) :
    getKey (injectMandatory t o) "rec" = some (.num (.int 1)) := by
  unfold injectMandatory
  rw [getKey_setKey_self]

theorem getKey_injectMandatory_other (t : MatomoTracker) (o : Options)
    (k : String) (h1 : k ≠ "idsite") (h2 : k ≠ "rec") :
    getKey (injectMandatory t o) k = getKey o k := by
  unfold injectMandatory
  rw [getKey_setKey_ne _ _ _ _ h2, getKey_setKey_ne _ _ _ _ h1]

theorem truthy_and_isStr (u : JSValue) :
    (u.truthy && u.isStr) = (u.isStr && u.strVal != "") := by
  cases u <;> simp [JSValue.truthy, JSValue.isStr, JSValue.strVal]

theorem getStrKey_append (a b : List (String × String)) (k : String) :
    getStrKey (a ++ b) k =
      match getStrKey a k with
      | some v => some v
      | none => getStrKey b k := by
  induction a with
  | nil => simp [getStrKey]
  | cons hd tl ih =>
    obtain ⟨k₀, v₀⟩ := hd
    by_cases h : k₀ = k
    · simp [getStrKey, h]
    · simp [getStrKey, h, ih]

theorem setStrKey_fresh (acc : List (String × String)) (k v : String)
    (h : getStrKey acc k = none) : setStrKey acc k v = acc ++ [(k, v)] := by
  induction acc with
  | nil => simp [setStrKey]
  | cons hd tl ih =>
    obtain ⟨k₀, v₀⟩ := hd
    by_cases h0 : k₀ = k
    · simp [getStrKey, h0] at h
    · simp [getStrKey, h0] at h
      simp [setStrKey, h0, ih h]

theorem optionValuesToString_foldl (opts : Options) (acc : List (String × String))
    (hfresh : ∀ kv ∈ opts, getStrKey acc kv.1 = none)
    (hnd : (opts.map Prod.fst).Nodup) :
    opts.foldl
        (fun acc kv =>
          if kv.2 ≠ JSValue.undef then setStrKey acc kv.1 kv.2.jsToString else acc)
        acc =
      acc ++ (opts.filter (fun kv => decide (kv.2 ≠ JSValue.undef))).map
        (fun kv => (kv.1, kv.2.jsToString)) := by
  induction opts generalizing acc with
  | nil => simp
  | cons hd tl ih =>
    obtain ⟨k, v⟩ := hd
    have hndk : k ∉ tl.map Prod.fst := by
      simpa using (List.nodup_cons.mp hnd).1
    have hndt : (tl.map Prod.fst).Nodup := (List.nodup_cons.mp hnd).2
    by_cases hv : v = JSValue.undef
    · subst hv
      rw [List.foldl_cons, List.filter_cons]
      rw [if_neg (show ¬ ((k, JSValue.undef) : String × JSValue).2 ≠ JSValue.undef by simp)]
      rw [show (decide (((k, JSValue.undef) : String × JSValue).2 ≠ JSValue.undef)) = false
        from by simp]
      simp only [Bool.false_eq_true, if_false]
      exact ih acc (fun kv hkv => hfresh kv (List.mem_cons_of_mem _ hkv)) hndt
    · have hacc : getStrKey acc k = none := hfresh (k, v) (List.mem_cons_self _ _)
      rw [List.foldl_cons, List.filter_cons]
      rw [if_pos (show ((k, v) : String × JSValue).2 ≠ JSValue.undef by simpa using hv)]
      rw [show (decide (((k, v) : String × JSValue).2 ≠ JSValue.undef)) = true
        from by simpa using hv]
      simp only [if_true]
      rw [setStrKey_fresh acc k v.jsToString hacc]
      rw [ih (acc ++ [(k, v.jsToString)]) ?_ hndt]
      · simp
      · intro kv hkv
        rw [getStrKey_append]
        rw [hfresh kv (List.mem_cons_of_mem _ hkv)]
        have hne : ¬ k = kv.1 := by
          intro hh
          exact hndk (hh ▸ List.mem_map_of_mem Prod.fst hkv)
        simp [getStrKey, hne]

theorem construct_ok_fields (v u b : JSValue) (t : MatomoTracker)
    (h : construct v u b = .ok t) :
    t = { siteId := .num (toNumber v), trackerUrl := u.strVal
          usesHTTPS := strStartsWith u.strVal "https" } := by
  unfold construct at h
  split at h
  · exact absurd h (by simp)
  · split at h
    · exact absurd h (by simp)
    · split at h
      · exact absurd h (by simp)
      · exact (Except.ok.injEq _ _ ▸ h).symm

theorem construct_isErr_eq (v u b : JSValue) :
    isErr (construct v u b) =
      (!(v.truthy && (v.isNum || v.isStr)) ||
       !(u.truthy && u.isStr) ||
       (!b.truthy && !recognizedEndpoint u.strVal)) := by
  unfold construct isErr
  by_cases h1 : (v.truthy && (v.isNum || v.isStr)) = true <;>
    by_cases h2 : (u.truthy && u.isStr) = true <;>
      by_cases h3 : (!b.truthy && !recognizedEndpoint u.strVal) = true <;>
        simp [h1, h2, h3]

end Lemmas

/-- C5: for a client constructed with site id 1 and endpoint
"http://example.com/matomo.php", the call track("http://mywebsite.com/")
issues exactly one GET request whose URL is exactly
"http://example.com/matomo.php?url=http%3A%2F%2Fmywebsite.com%2F&idsite=1&rec=1"
(parameters in the order url, idsite, rec, url value percent-encoded),
whatever the listener count and the fetch outcome. -/
theorem c5_concrete_get_url :
    ∀ (listeners : Nat) (outcome : FetchOutcome),
      (construct (.num (.int 1)) (.str "http://example.com/matomo.php") .undef).map
          (fun t => (track t listeners (.str "http://mywebsite.com/") outcome).requests) =
        .ok [.get "http://example.com/matomo.php?url=http%3A%2F%2Fmywebsite.com%2F&idsite=1&rec=1"] := by
  intro listeners outcome
  cases outcome with
  | response status =>
    by_cases h : responseOk status <;>
      · simp [construct, track, canonTrackInput, h]
        rfl
  | failure msg =>
    simp [construct, track, canonTrackInput]
    rfl

/-- C3: for every input to track from which no URL can be determined (no
argument, or a mapping with no url entry), track rejects with the
URL-related error message and issues zero network calls. -/
theorem c3_no_url_rejects (t : MatomoTracker) (listeners : Nat)
    (input : TrackInput) (outcome : FetchOutcome)
    (h : input = .undef ∨ ∃ o, input = .obj o ∧ getKey o "url" = none) :
    (track t listeners input outcome).result =
        .error "URL to be tracked must be specified." ∧
      (track t listeners input outcome).requests = [] := by
  rcases h with h | ⟨o, rfl, ho⟩
  · subst h
    simp [track, canonTrackInput]
  · simp [track, canonTrackInput, getProp, ho, JSValue.truthy]

theorem c3_no_url_rejects_witness :
    (track exampleTracker 0 (.obj []) (.response 200)).result =
        .error "URL to be tracked must be specified." ∧
      (track exampleTracker 0 (.obj []) (.response 200)).requests = [] :=
  c3_no_url_rejects exampleTracker 0 (.obj []) (.response 200) (Or.inr ⟨[], rfl, rfl⟩)

/-- C1: whenever track proceeds past URL validation (a bare string input
having first been canonicalized to the one-field mapping holding it as url),
the mapping that gets serialized carries idsite equal to the client siteId
and rec equal to 1, overwriting any caller-supplied value; every other
caller-supplied field is carried unmodified; and the single GET request URL
is built from exactly this injected mapping. -/
theorem c1_mandatory_injection (t : MatomoTracker) (listeners : Nat)
    (input : TrackInput) (outcome : FetchOutcome) (opts : Options)
    (hc : canonTrackInput input = some opts)
    (hurl : (getProp opts "url").truthy = true) :
    (track t listeners input outcome).finalOptions = injectMandatory t opts ∧
      getKey (track t listeners input outcome).finalOptions "idsite" = some t.siteId ∧
      getKey (track t listeners input outcome).finalOptions "rec" =
        some (.num (.int 1)) ∧
      (∀ k, k ≠ "idsite" → k ≠ "rec" →
        getKey (track t listeners input outcome).finalOptions k = getKey opts k) ∧
      (track t listeners input outcome).requests =
        [.get (t.trackerUrl ++ "?" ++
          formUrlEncode (optionValuesToString
            ((track t listeners input outcome).finalOptions)))] := by
  have hmain : (track t listeners input outcome).finalOptions = injectMandatory t opts ∧
      (track t listeners input outcome).requests =
        [.get (t.trackerUrl ++ "?" ++
          formUrlEncode (optionValuesToString (injectMandatory t opts)))] := by
    unfold track
    rw [hc]
    simp only [hurl, Bool.not_true, Bool.false_eq_true, if_false]
    cases outcome with
    | response status => by_cases hok : responseOk status <;> simp [hok]
    | failure msg => simp
  refine ⟨hmain.1, ?_, ?_, ?_, ?_⟩
  · rw [hmain.1]
    exact getKey_injectMandatory_idsite t opts
  · rw [hmain.1]
    exact getKey_injectMandatory_rec t opts
  · intro k h1 h2
    rw [hmain.1]
    exact getKey_injectMandatory_other t opts k h1 h2
  · rw [hmain.1]
    exact hmain.2

theorem c1_mandatory_injection_witness :
    getKey (track exampleTracker 1
        (.obj [("url", .str "http://mywebsite.com/"), ("uid", .str "u1"),
               ("idsite", .num (.int 99))])
        (.failure "getaddrinfo ENOTFOUND")).finalOptions "idsite" =
      some (.num (.int 1)) ∧
    getKey (track exampleTracker 1
        (.obj [("url", .str "http://mywebsite.com/"), ("uid", .str "u1"),
               ("idsite", .num (.int 99))])
        (.failure "getaddrinfo ENOTFOUND")).finalOptions "uid" = some (.str "u1") := by
  have h := c1_mandatory_injection exampleTracker 1
    (.obj [("url", .str "http://mywebsite.com/"), ("uid", .str "u1"),
           ("idsite", .num (.int 99))])
    (.failure "getaddrinfo ENOTFOUND")
    [("url", .str "http://mywebsite.com/"), ("uid", .str "u1"),
     ("idsite", .num (.int 99))] rfl (by decide)
  exact ⟨h.2.1, (h.2.2.2.1 "uid" (by decide) (by decide)).trans (by decide)⟩

/-- C2: once the network call is dispatched, neither a non-success status
nor a transport exception rejects the promise; the error event is emitted
exactly when at least one listener is subscribed, carrying the status code
or the failure message respectively, and in both failure cases the
operation resolves with no result value.  Stated for track and trackBulk
together. -/
theorem c2_listener_gated_errors (t : MatomoTracker) (listeners : Nat)
    (input : TrackInput) (opts : Options) (items : List Options) (rt : String)
    (outcome : FetchOutcome)
    (hc : canonTrackInput input = some opts)
    (hurl : (getProp opts "url").truthy = true)
    (hne : items ≠ [])
    (hsite : (t.siteId != JSValue.undef && t.siteId != JSValue.null) = true) :
    (∃ v, (track t listeners input outcome).result = .ok v) ∧
      (∃ v, (trackBulk t listeners (some items) outcome rt).result = .ok v) ∧
      (∀ status, outcome = .response status → responseOk status = false →
        (track t listeners input outcome).events =
            (if listeners > 0 then [.statusCode status] else []) ∧
          (track t listeners input outcome).result = .ok none ∧
          (trackBulk t listeners (some items) outcome rt).events =
            (if listeners > 0 then [.statusCode status] else []) ∧
          (trackBulk t listeners (some items) outcome rt).result = .ok none) ∧
      (∀ msg, outcome = .failure msg →
        (track t listeners input outcome).events =
            (if listeners > 0 then [.message msg] else []) ∧
          (track t listeners input outcome).result = .ok none ∧
          (trackBulk t listeners (some items) outcome rt).events =
            (if listeners > 0 then [.message msg] else []) ∧
          (trackBulk t listeners (some items) outcome rt).result = .ok none) := by
  have hlen : (items.length > 0) = true := by
    simp [List.length_pos, hne]
  refine ⟨?_, ?_, ?_, ?_⟩
  · unfold track
    rw [hc]
    simp only [hurl, Bool.not_true, Bool.false_eq_true, if_false]
    cases outcome with
    | response status =>
      by_cases hok : responseOk status <;> simp [hok]
    | failure msg => simp
  · unfold trackBulk
    simp only [hlen, hsite, Bool.not_true, Bool.false_eq_true, if_false]
    cases outcome with
    | response status =>
      by_cases hok : responseOk status <;> simp [hok]
    | failure msg => simp
  · rintro status rfl hok
    unfold track trackBulk
    rw [hc]
    simp only [hurl, hlen, hsite, Bool.not_true, Bool.false_eq_true, if_false]
    simp [hok]
  · rintro msg rfl
    unfold track trackBulk
    rw [hc]
    simp only [hurl, hlen, hsite, Bool.not_true, Bool.false_eq_true, if_false]
    simp

theorem c2_listener_gated_errors_witness :
    (track exampleTracker 0 (.str "http://mywebsite.com/") (.response 404)).events = [] ∧
      (track exampleTracker 1 (.str "http://mywebsite.com/") (.response 404)).events =
        [.statusCode 404] ∧
      (track exampleTracker 1 (.str "http://mywebsite.com/") (.response 404)).result =
        .ok none := by
  have h0 := (c2_listener_gated_errors exampleTracker 0
    (.str "http://mywebsite.com/") [("url", .str "http://mywebsite.com/")]
    [[("url", .str "http://mywebsite.com/")]] "" (.response 404)
    rfl (by decide) (by decide) (by decide)).2.2.1 404 rfl (by decide)
  have h1 := (c2_listener_gated_errors exampleTracker 1
    (.str "http://mywebsite.com/") [("url", .str "http://mywebsite.com/")]
    [[("url", .str "http://mywebsite.com/")]] "" (.response 404)
    rfl (by decide) (by decide) (by decide)).2.2.1 404 rfl (by decide)
  exact ⟨h0.1.trans (by decide), h1.1.trans (by decide), h1.2.1⟩

/-- C9: track and trackBulk mutate the caller-supplied mapping(s) in place:
for every fetch outcome, including failed deliveries, the final state of the
object(s) the caller passed in carries idsite = the client siteId and
rec = 1. -/
theorem c9_in_place_mutation (t : MatomoTracker) (listeners : Nat)
    (input : TrackInput) (opts : Options) (items : List Options) (rt : String)
    (outcome : FetchOutcome)
    (hc : canonTrackInput input = some opts)
    (hurl : (getProp opts "url").truthy = true)
    (hne : items ≠ [])
    (hsite : (t.siteId != JSValue.undef && t.siteId != JSValue.null) = true) :
    getKey (track t listeners input outcome).finalOptions "idsite" = some t.siteId ∧
      getKey (track t listeners input outcome).finalOptions "rec" =
        some (.num (.int 1)) ∧
      (trackBulk t listeners (some items) outcome rt).finalItems =
        items.map (injectMandatory t) ∧
      ∀ o ∈ (trackBulk t listeners (some items) outcome rt).finalItems,
        getKey o "idsite" = some t.siteId ∧ getKey o "rec" = some (.num (.int 1)) := by
  have hlen : (items.length > 0) = true := by
    simp [List.length_pos, hne]
  have hfo : (track t listeners input outcome).finalOptions = injectMandatory t opts := by
    unfold track
    rw [hc]
    simp only [hurl, Bool.not_true, Bool.false_eq_true, if_false]
    cases outcome with
    | response status => by_cases hok : responseOk status <;> simp [hok]
    | failure msg => simp
  have hfi : (trackBulk t listeners (some items) outcome rt).finalItems =
      items.map (injectMandatory t) := by
    unfold trackBulk
    simp only [hlen, hsite, Bool.not_true, Bool.false_eq_true, if_false]
    cases outcome with
    | response status => by_cases hok : responseOk status <;> simp [hok]
    | failure msg => simp
  refine ⟨?_, ?_, hfi, ?_⟩
  · rw [hfo]
    exact getKey_injectMandatory_idsite t opts
  · rw [hfo]
    exact getKey_injectMandatory_rec t opts
  · intro o ho
    rw [hfi] at ho
    obtain ⟨q, _, rfl⟩ := List.mem_map.mp ho
    exact ⟨getKey_injectMandatory_idsite t q, getKey_injectMandatory_rec t q⟩

theorem c9_in_place_mutation_witness :
    getKey (track exampleTracker 0 (.str "http://mywebsite.com/")
        (.failure "getaddrinfo ENOTFOUND")).finalOptions "idsite" =
      some (.num (.int 1)) ∧
    (trackBulk exampleTracker 0 (some [[("e_c", .str "Buy")]])
        (.failure "getaddrinfo ENOTFOUND") "").finalItems =
      [[("e_c", .str "Buy"), ("idsite", .num (.int 1)), ("rec", .num (.int 1))]] := by
  have h := c9_in_place_mutation exampleTracker 0 (.str "http://mywebsite.com/")
    [("url", .str "http://mywebsite.com/")] [[("e_c", .str "Buy")]] ""
    (.failure "getaddrinfo ENOTFOUND") rfl (by decide) (by decide) (by decide)
  exact ⟨h.1.trans (by decide), h.2.2.1.trans (by decide)⟩

/-- C6 counterexample: constructing with the site identifier 0 (a supplied
number) and a valid endpoint fails in the code, while the claim predicate
(missing or not a number/string) classifies this input as accepted, so the
claimed "if and only if" is false at this input. -/
theorem c6_counterexample :
    isErr (construct (.num (.int 0)) (.str "http://example.com/matomo.php") .undef) = true ∧
      claimC6Rejects (.num (.int 0)) (.str "http://example.com/matomo.php") .undef = false := by
  decide

/-- C6 amended: the constructor fails exactly when the site identifier is
falsy (missing, null, 0, empty string, NaN, false) or not a number/string,
or the endpoint URL is not a non-empty string, or the bypass flag is falsy
and the endpoint ends with neither matomo.php nor piwik.php; on success it
stores the numeric coercion of the site identifier and the endpoint URL
unchanged. -/
theorem c6_amended_validation (siteId trackerUrl noURLValidation : JSValue) :
    isErr (construct siteId trackerUrl noURLValidation) =
        amendedC6Rejects siteId trackerUrl noURLValidation ∧
      ∀ t, construct siteId trackerUrl noURLValidation = .ok t →
        t.siteId = .num (toNumber siteId) ∧ t.trackerUrl = trackerUrl.strVal := by
  constructor
  · rw [construct_isErr_eq]
    unfold amendedC6Rejects
    rw [truthy_and_isStr, Bool.not_and]
  · intro t ht
    rw [construct_ok_fields siteId trackerUrl noURLValidation t ht]
    exact ⟨rfl, rfl⟩

theorem c6_amended_validation_witness :
    isErr (construct (.num (.int 0)) (.str "http://example.com/matomo.php") .undef) =
        amendedC6Rejects (.num (.int 0)) (.str "http://example.com/matomo.php") .undef ∧
      (construct (.num (.int 1)) (.str "http://example.com/matomo.php") .undef).map
          MatomoTracker.siteId = .ok (.num (.int 1)) := by
  constructor
  · exact (c6_amended_validation (.num (.int 0)) (.str "http://example.com/matomo.php") .undef).1
  · have h := ((c6_amended_validation (.num (.int 1))
      (.str "http://example.com/matomo.php") .undef).2 exampleTracker (by decide)).1
    rw [show construct (.num (.int 1)) (.str "http://example.com/matomo.php") .undef =
      .ok exampleTracker from by decide]
    exact congrArg Except.ok h

/-- C10: every successfully constructed tracker has a number as its siteId,
so the "siteId must be specified" guard of trackBulk never fires and
trackBulk rejects exactly when the event-item sequence is missing or
empty. -/
theorem c10_constructed_siteId_number (v u b : JSValue) (t : MatomoTracker)
    (h : construct v u b = .ok t) :
    (∃ n, t.siteId = JSValue.num n) ∧
      ∀ (listeners : Nat) (items : Option (List Options)) (outcome : FetchOutcome)
        (rt : String),
        (isErr (trackBulk t listeners items outcome rt).result = true ↔
          items = none ∨ items = some []) := by
  rw [construct_ok_fields v u b t h]
  refine ⟨⟨toNumber v, rfl⟩, ?_⟩
  intro listeners items outcome rt
  cases items with
  | none => simp [trackBulk, isErr]
  | some l =>
    cases l with
    | nil => simp [trackBulk, isErr]
    | cons q qs =>
      cases outcome with
      | response status =>
        by_cases hok : responseOk status <;>
          simp [trackBulk, isErr, hok]
      | failure msg =>
        simp [trackBulk, isErr]

theorem c10_constructed_siteId_number_witness :
    isErr (trackBulk exampleTracker 0 (some []) (.response 200) "").result = true :=
  ((c10_constructed_siteId_number (.num (.int 1)) (.str "http://example.com/matomo.php")
      .undef exampleTracker (by decide)).2 0 (some []) (.response 200) "").mpr (Or.inr rfl)

/-- C7: serialization omits every key whose value is undefined (such a key
never appears in the serialized mapping, in particular not as an empty value
or the literal string "undefined"), and every key with a defined value
appears with that value rendered to its string form. -/
theorem c7_undefined_omitted (opts : Options)
    (hnd : (opts.map Prod.fst).Nodup) :
    optionValuesToString opts =
        (opts.filter (fun kv => decide (kv.2 ≠ JSValue.undef))).map
          (fun kv => (kv.1, kv.2.jsToString)) ∧
      ∀ k v, (k, v) ∈ optionValuesToString opts ↔
        ∃ w, (k, w) ∈ opts ∧ w ≠ JSValue.undef ∧ v = w.jsToString := by
  have heq := optionValuesToString_foldl opts [] (fun kv _ => rfl) hnd
  refine ⟨heq, ?_⟩
  intro k v
  unfold optionValuesToString
  rw [heq]
  simp only [List.nil_append, List.mem_map, List.mem_filter, Prod.ext_iff]
  constructor
  · rintro ⟨⟨k', w⟩, ⟨hmem, hw⟩, hk, hv⟩
    exact ⟨w, by simpa [← hk] using hmem, by simpa using hw, hv.symm⟩
  · rintro ⟨w, hmem, hw, rfl⟩
    exact ⟨(k, w), ⟨hmem, by simpa using hw⟩, rfl, rfl⟩

theorem c7_undefined_omitted_witness :
    optionValuesToString
        [("url", .str "http://x/"), ("uid", .undef), ("h", .num (.int 5))] =
      [("url", "http://x/"), ("h", "5")] :=
  (c7_undefined_omitted
      [("url", .str "http://x/"), ("uid", .undef), ("h", .num (.int 5))]
      (by decide)).1.trans (by decide)

/-- C4: for every non-empty item sequence, trackBulk injects idsite and rec
into each item with the same injection track uses, serializes each injected
item independently into its own percent-encoded query-string fragment
prefixed with "?", keeps the fragments in input order, wraps them as the
JSON body with the single requests field, and issues exactly one POST to
the endpoint with content type application/json. -/
theorem c4_bulk_single_post (t : MatomoTracker) (listeners : Nat)
    (items : List Options) (rt : String) (outcome : FetchOutcome)
    (hne : items ≠ [])
    (hsite : (t.siteId != JSValue.undef && t.siteId != JSValue.null) = true) :
    (trackBulk t listeners (some items) outcome rt).finalItems =
        items.map (injectMandatory t) ∧
      (trackBulk t listeners (some items) outcome rt).requests =
        [.post t.trackerUrl "application/json"
          ("\x7b\"requests\":[" ++
            String.intercalate ","
              (((trackBulk t listeners (some items) outcome rt).finalItems.map
                  (fun q => "?" ++ formUrlEncode (optionValuesToString q))).map
                jsonStringLit) ++
            "]\x7d")] := by
  have hlen : (items.length > 0) = true := by
    simp [List.length_pos, hne]
  have hfi : (trackBulk t listeners (some items) outcome rt).finalItems =
      items.map (injectMandatory t) := by
    unfold trackBulk
    simp only [hlen, hsite, Bool.not_true, Bool.false_eq_true, if_false]
    cases outcome with
    | response status => by_cases hok : responseOk status <;> simp [hok]
    | failure msg => simp
  refine ⟨hfi, ?_⟩
  rw [hfi]
  have hbody : ((items.map (injectMandatory t)).map
        (fun q => "?" ++ formUrlEncode (optionValuesToString q))).map jsonStringLit =
      items.map (fun query =>
        jsonStringLit ("?" ++ formUrlEncode (optionValuesToString (injectMandatory t query)))) := by
    simp [List.map_map, Function.comp]
  rw [hbody]
  unfold trackBulk
  simp only [hlen, hsite, Bool.not_true, Bool.false_eq_true, if_false]
  cases outcome with
  | response status =>
    by_cases hok : responseOk status <;> simp [hok, bulkBody]
  | failure msg => simp [bulkBody]

theorem c4_bulk_single_post_witness :
    (trackBulk exampleTracker 0 (some [[("e_c", .str "Buy")]])
        (.response 200) "").requests =
      [.post "http://example.com/matomo.php" "application/json"
        "\x7b\"requests\":[\"?e_c=Buy&idsite=1&rec=1\"]\x7d"] :=
  (c4_bulk_single_post exampleTracker 0 [[("e_c", .str "Buy")]] ""
      (.response 200) (by decide) (by decide)).2.trans (by decide)

/-- C8 counterexample: in trackEvent, the event category field being present
with the empty-string value (a defined string, not absent) still rejects the
call without any network request, so the claim that presence of the required
fields makes trackEvent delegate to track is false at this input. -/
theorem c8_counterexample :
    getKey [("e_c", .str ""), ("e_a", .str "go"), ("url", .str "http://x/")]
        "e_c" = some (.str "") ∧
      getKey [("e_c", .str ""), ("e_a", .str "go"), ("url", .str "http://x/")]
        "e_a" = some (.str "go") ∧
      (V2.trackEvent exampleTracker 0
          [("e_c", .str ""), ("e_a", .str "go"), ("url", .str "http://x/")]
          (.response 200)).result =
        .error "Event category and action must be specified." ∧
      (V2.trackEvent exampleTracker 0
          [("e_c", .str ""), ("e_a", .str "go"), ("url", .str "http://x/")]
          (.response 200)).requests = [] := by
  decide

/-- C8 amended: trackEvent rejects before any network I/O when the event
category or action field is absent or falsy (for example the empty string),
and trackContent likewise for the content name or piece; when the required
fields are present and truthy, each delegates to track on a copy of the
mapping with the custom-action flag ca set to 1. -/
theorem c8_amended_variants (t : MatomoTracker) (listeners : Nat)
    (options : Options) (outcome : FetchOutcome) :
    (((getProp options "e_c").truthy && (getProp options "e_a").truthy) = true →
        V2.trackEvent t listeners options outcome =
          V2.track t listeners (setKey options "ca" (.num (.int 1))) outcome) ∧
      (((getProp options "e_c").truthy && (getProp options "e_a").truthy) = false →
        (V2.trackEvent t listeners options outcome).result =
            .error "Event category and action must be specified." ∧
          (V2.trackEvent t listeners options outcome).requests = []) ∧
      (((getProp options "c_n").truthy && (getProp options "c_p").truthy) = true →
        V2.trackContent t listeners options outcome =
          V2.track t listeners (setKey options "ca" (.num (.int 1))) outcome) ∧
      (((getProp options "c_n").truthy && (getProp options "c_p").truthy) = false →
        (V2.trackContent t listeners options outcome).result =
            .error "Content name and piece must be specified." ∧
          (V2.trackContent t listeners options outcome).requests = []) := by
  refine ⟨?_, ?_, ?_, ?_⟩
  · intro h
    unfold V2.trackEvent
    simp [h]
  · intro h
    unfold V2.trackEvent
    simp [h]
  · intro h
    unfold V2.trackContent
    simp [h]
  · intro h
    unfold V2.trackContent
    simp [h]

theorem c8_amended_variants_witness :
    V2.trackEvent exampleTracker 0
        [("e_c", .str "Buy"), ("e_a", .str "rightButton")] (.response 200) =
      V2.track exampleTracker 0
        (setKey [("e_c", .str "Buy"), ("e_a", .str "rightButton")] "ca"
          (.num (.int 1))) (.response 200) ∧
    (V2.trackContent exampleTracker 0 [("c_n", .str "Ad")] (.response 200)).requests =
      [] :=
  ⟨(c8_amended_variants exampleTracker 0
      [("e_c", .str "Buy"), ("e_a", .str "rightButton")] (.response 200)).1 (by decide),
   ((c8_amended_variants exampleTracker 0 [("c_n", .str "Ad")]
      (.response 200)).2.2.2 (by decide)).2⟩

end Matomo
